import Mathlib

/-!
Shallow embedding of the Q-A-chatbot repository (FastAPI + ChromaDB RAG
service) and verification of its specification claims.

Conventions of the embedding:
* Python strings are modelled as `String` / `List Char`; Python `str.strip`
  is `pyStrip` (drops whitespace at both ends), `str.rfind` is `pyRfind`
  (index of the last occurrence, `-1` if absent), slicing `s[a:b]` with
  non-negative bounds is `pySlice`.
* Python floats in the confidence heuristic are modelled as rationals `ℚ`;
  the heuristic only multiplies and compares small decimal literals.
* Fallible calls to external systems (Groq completion, document extraction,
  the vector insert) are oracle parameters of type `Except String _`.
* The spec's `tenant_id` is the code's `user_id`; integer ids are `Nat`.
-/

namespace QAChatbot

/-- Python `str.strip` on a list of characters: remove leading whitespace,
then trailing whitespace. -/
def pyStrip (l : List Char) : List Char :=
  List.rdropWhile Char.isWhitespace (l.dropWhile Char.isWhitespace)

/-- Helper for `pyRfind`: fold over the characters keeping the index of the
last match seen. -/
def rfindAux (c : Char) : List Char → Nat → Int → Int
  | [], _, acc => acc
  | x :: xs, i, acc => rfindAux c xs (i + 1) (if x = c then (i : Int) else acc)

/-- Python `str.rfind(c)`: index of the last occurrence of `c`, `-1` if
absent. -/
def pyRfind (l : List Char) (c : Char) : Int :=
  rfindAux c l 0 (-1)

/-- Python slice `s[a:b]` for non-negative bounds (`b` may exceed the
length, and `b ≤ a` gives the empty string). -/
def pySlice (l : List Char) (a b : Nat) : List Char :=
  (l.drop a).take (b - a)

/-- Python `needle in haystack` on strings: `needle` occurs as a contiguous
substring of `haystack`. -/
def containsSub (needle : List Char) : List Char → Bool
  | [] => needle.isEmpty
  | c :: rest => needle.isPrefixOf (c :: rest) || containsSub needle rest

/-- The apostrophe character (several uncertainty phrases contain it). -/
def apoChar : Char := Char.ofNat 39

/-- A one-character string holding an apostrophe. -/
def apoS : String := String.mk [apoChar]

/-- The fixed uncertainty-phrase list of `LLMService._calculate_confidence`
(`src/dev/services/llm_provider.py` lines 104-108). -/
def uncertaintyPhrases : List String :=
  ["i don" ++ apoS ++ "t know", "i" ++ apoS ++ "m not sure", "i cannot",
   "unable to", "not available", "insufficient information",
   "can" ++ apoS ++ "t find", "unclear", "uncertain", "cannot determine"]

/-- `answer` contains some phrase of the fixed uncertainty list, after
lowercasing (`llm_provider.py` lines 110-113). -/
def hasUncertainty (answer : String) : Bool :=
  uncertaintyPhrases.any (fun p => containsSub p.data (answer.data.map Char.toLower))

/-- The length-tier of `_calculate_confidence` (`llm_provider.py` lines
116-124): 0.9 above 200 characters, 0.8 above 100, 0.7 above 50, else
0.6. -/
def lengthTier (answer : String) : ℚ :=
  if answer.length > 200 then 0.9
  else if answer.length > 100 then 0.8
  else if answer.length > 50 then 0.7
  else 0.6

/-- The context adjustment of `_calculate_confidence` (`llm_provider.py`
lines 126-128): multiply by 0.7 when `not context or
len(context.strip()) < 50`. -/
def contextAdjust (context : String) (base : ℚ) : ℚ :=
  if context = "" ∨ (pyStrip context.data).length < 50 then base * 0.7 else base

/-- `LLMService._calculate_confidence` (`llm_provider.py` lines 88-133).
`not answer` is modelled as `answer = ""`; the length tiers read the raw
`len(answer)`; the result is `min(base_confidence, 1.0)`. -/
def calculateConfidence (answer context : String) : ℚ :=
  if answer = "" ∨ (pyStrip answer.data).length < 10 then 0.1
  else if hasUncertainty answer then 0.3
  else min (contextAdjust context (lengthTier answer)) 1

/-- The context adjustment exactly as the claim words it: multiply by 0.7
when the (untrimmed) context is empty or shorter than 50 characters. -/
def claimAdjustOrig (context : String) (tier : ℚ) : ℚ :=
  if context = "" ∨ context.length < 50 then tier * 0.7 else tier

/-- The confidence computation exactly as the claim words it, with the
final value clamped to `[0, 1]`. -/
def claimConfidenceOrig (answer context : String) : ℚ :=
  if (pyStrip answer.data).length < 10 then 0.1
  else if hasUncertainty answer then 0.3
  else max 0 (min (claimAdjustOrig context (lengthTier answer)) 1)

/-- The context adjustment as the amended claim words it: multiply by 0.7
when the trimmed context is shorter than 50 characters (in particular when
the context is empty or all whitespace). -/
def claimAdjustAmended (context : String) (tier : ℚ) : ℚ :=
  if (pyStrip context.data).length < 50 then tier * 0.7 else tier

/-- The confidence computation as the amended claim words it. -/
def claimConfidenceAmended (answer context : String) : ℚ :=
  if (pyStrip answer.data).length < 10 then 0.1
  else if hasUncertainty answer then 0.3
  else max 0 (min (claimAdjustAmended context (lengthTier answer)) 1)

/-- An answer of 55 letters: trimmed length ≥ 10, no uncertainty phrase,
length tier 0.7. -/
def ansA : String := String.mk (List.replicate 55 'b')

/-- A context of 60 spaces: 60 characters long, but empty once trimmed. -/
def ctxSp : String := String.mk (List.replicate 60 ' ')

/-- The empty string strips to the empty list. -/
theorem pyStrip_nil_of_empty (s : String) (h : s = "") : (pyStrip s.data).length = 0 := by
  subst h; rfl

/-- C2 counterexample: on a 55-letter answer and a context of 60 spaces the
code multiplies the 0.7 tier by 0.7 (it tests the trimmed context length),
returning 0.49, while the claim as stated leaves 0.7 (the raw context is 60
characters long, not shorter than 50). -/
theorem c2_counterexample :
    calculateConfidence ansA ctxSp = 49/100 ∧
    claimConfidenceOrig ansA ctxSp = 7/10 ∧
    calculateConfidence ansA ctxSp ≠ claimConfidenceOrig ansA ctxSp := by
  have h1 : ¬ (ansA = "" ∨ (pyStrip ansA.data).length < 10) := by decide
  have h1' : ¬ (pyStrip ansA.data).length < 10 := by decide
  have h2 : ¬ hasUncertainty ansA = true := by decide
  have h5 : lengthTier ansA = 7/10 := by
    unfold lengthTier
    rw [if_neg (by decide), if_neg (by decide), if_pos (by decide)]
    norm_num
  have h6 : contextAdjust ctxSp (7/10) = 49/100 := by
    unfold contextAdjust
    rw [if_pos (by decide)]
    norm_num
  have h7 : claimAdjustOrig ctxSp (7/10) = 7/10 := by
    unfold claimAdjustOrig
    rw [if_neg (by decide)]
  refine ⟨?_, ?_, ?_⟩
  · unfold calculateConfidence
    rw [if_neg h1, if_neg h2, h5, h6, min_eq_left (by norm_num)]
  · unfold claimConfidenceOrig
    rw [if_neg h1', if_neg h2, h5, h7, min_eq_left (by norm_num),
      max_eq_right (by norm_num)]
  · unfold calculateConfidence claimConfidenceOrig
    rw [if_neg h1, if_neg h1', if_neg h2, h5, h6, h7,
      min_eq_left (by norm_num), min_eq_left (by norm_num),
      max_eq_right (by norm_num)]
    rw [if_neg h2]
    norm_num

/-- C2 (amended): for every answer and context the code's confidence equals
the claimed computation once the ×0.7 condition reads the trimmed context
length: 0.1 for trimmed answers shorter than 10 characters, else 0.3 on any
uncertainty phrase (checked before length tiering), else the 0.9/0.8/0.7/0.6
length tier, ×0.7 whenever the trimmed context is shorter than 50
characters, clamped to [0,1]. -/
theorem c2_confidence_amended (answer context : String) :
    calculateConfidence answer context = claimConfidenceAmended answer context := by
  have htier : (0 : ℚ) ≤ lengthTier answer := by
    unfold lengthTier; split_ifs <;> norm_num
  have hadj : contextAdjust context (lengthTier answer) =
      claimAdjustAmended context (lengthTier answer) := by
    unfold contextAdjust claimAdjustAmended
    by_cases h3 : (pyStrip context.data).length < 50
    · rw [if_pos (Or.inr h3), if_pos h3]
    · have h3' : ¬ (context = "" ∨ (pyStrip context.data).length < 50) := by
        rintro (h | h)
        · exact h3 (by rw [pyStrip_nil_of_empty context h]; norm_num)
        · exact h3 h
      rw [if_neg h3', if_neg h3]
  have hnonneg : (0 : ℚ) ≤ claimAdjustAmended context (lengthTier answer) := by
    unfold claimAdjustAmended
    split_ifs
    · positivity
    · exact htier
  unfold calculateConfidence claimConfidenceAmended
  by_cases h1 : (pyStrip answer.data).length < 10
  · rw [if_pos (Or.inr h1), if_pos h1]
  · have h1' : ¬ (answer = "" ∨ (pyStrip answer.data).length < 10) := by
      rintro (h | h)
      · exact h1 (by rw [pyStrip_nil_of_empty answer h]; norm_num)
      · exact h1 h
    rw [if_neg h1', if_neg h1]
    by_cases h2 : hasUncertainty answer = true
    · rw [if_pos h2, if_pos h2]
    · rw [if_neg h2, if_neg h2, hadj,
        max_eq_right (le_min hnonneg (by norm_num))]

/-- Stripping is idempotent. -/
theorem pyStrip_idem (l : List Char) : pyStrip (pyStrip l) = pyStrip l := by
  unfold pyStrip
  have hdw : List.dropWhile Char.isWhitespace
      (List.rdropWhile Char.isWhitespace (List.dropWhile Char.isWhitespace l)) =
      List.rdropWhile Char.isWhitespace (List.dropWhile Char.isWhitespace l) := by
    rw [List.dropWhile_eq_self_iff]
    intro hl hp
    have hpre := List.rdropWhile_prefix Char.isWhitespace
      (List.dropWhile Char.isWhitespace l)
    have hlenX : 0 < (List.dropWhile Char.isWhitespace l).length :=
      lt_of_lt_of_le hl hpre.length_le
    have hXzero := List.dropWhile_get_zero_not Char.isWhitespace l hlenX
    have hget := List.IsPrefix.getElem hpre (by simpa using hl)
    simp only [List.get_eq_getElem] at hp hXzero
    rw [hget] at hp
    exact hXzero hp
  rw [hdw, List.rdropWhile_idempotent]

/-!
## `DocumentService._simple_chunk_text` (`document_parser.py` lines 251-279)

The loop is modelled by a fuel-indexed recursion `chunkGo` that returns
`none` when the fuel runs out before the loop exits (the Python loop is
potentially non-terminating).  `start` is a natural number; all runs
examined by the theorems below keep Python's `start` non-negative, so `Nat`
subtraction (`end - overlap`) agrees with the Python value.  Python's
`chunk.rfind('.')` returns an index relative to `chunk` (the window), and
the source compares that relative index with the absolute quantity
`start + chunk_size // 2` and slices `text[start:break_point + 1]` with it.
-/

/-- `max(chunk.rfind('.'), chunk.rfind('\n'))` for the window
`text[start:start+csize]`: the window-relative offset of the last sentence
terminator or line break, `-1` if none. -/
def breakPoint (text : List Char) (csize start : Nat) : Int :=
  max (pyRfind (pySlice text start (start + csize)) '.')
      (pyRfind (pySlice text start (start + csize)) '\n')

/-- One iteration body of the chunking loop: the emitted (unstripped) chunk
and the Python variable `end` after the optional sentence-boundary
shortening. -/
def chunkStep (text : List Char) (csize start : Nat) : List Char × Nat :=
  if start + csize < text.length then
    if breakPoint text csize start > (start : Int) + (csize / 2 : Nat) then
      (pySlice text start ((breakPoint text csize start).toNat + 1),
       (breakPoint text csize start).toNat + 1)
    else (pySlice text start (start + csize), start + csize)
  else (pySlice text start (start + csize), start + csize)

/-- The chunking loop with fuel: appends `chunk.strip()`, advances `start`
to `end - overlap`, and exits when the new start reaches the text length
(`if start >= len(text): break`, equivalently the `while` guard). -/
def chunkGo (text : List Char) (csize ov : Nat) :
    Nat → Nat → List (List Char) → Option (List (List Char))
  | 0, _, _ => none
  | fuel + 1, start, acc =>
    if start < text.length then
      if text.length ≤ (chunkStep text csize start).2 - ov then
        some (acc ++ [pyStrip (chunkStep text csize start).1])
      else
        chunkGo text csize ov fuel ((chunkStep text csize start).2 - ov)
          (acc ++ [pyStrip (chunkStep text csize start).1])
    else some acc

/-- `DocumentService._simple_chunk_text`: run the loop from `start = 0`,
then keep only chunks that are non-empty after stripping. -/
def simpleChunkText (fuel : Nat) (text : List Char) (csize ov : Nat) :
    Option (List (List Char)) :=
  (chunkGo text csize ov fuel 0 []).map
    (List.filter (fun c => !(pyStrip c).isEmpty))

/-- 20-character text with a sentence terminator at index 9. -/
def c5text : List Char := "aaaaaaaaa.aaaaaaaaaa".data

/-- With `chunk_size = 10`, `overlap = 9`, one iteration from `start = 0`
lands on `start = 1` (the boundary at window-relative offset 9 fires the
shortening branch and `end` becomes 10). -/
theorem c5_step0 (n : Nat) (acc : List (List Char)) :
    chunkGo c5text 10 9 (n + 1) 0 acc =
      chunkGo c5text 10 9 n 1 (acc ++ ["aaaaaaaaa.".data]) := rfl

/-- From `start = 1` the boundary sits at window-relative offset 8, the
shortening branch slices `text[1:9]` and `end` becomes 9, so the next start
is `9 - 9 = 0` again. -/
theorem c5_step1 (n : Nat) (acc : List (List Char)) :
    chunkGo c5text 10 9 (n + 1) 1 acc =
      chunkGo c5text 10 9 n 0 (acc ++ ["aaaaaaaa".data]) := rfl

/-- The loop state cycles between `start = 0` and `start = 1`, so every
fuel budget is exhausted. -/
theorem c5_go_none (n : Nat) : ∀ acc,
    chunkGo c5text 10 9 n 0 acc = none ∧ chunkGo c5text 10 9 n 1 acc = none := by
  induction n with
  | zero => intro acc; exact ⟨rfl, rfl⟩
  | succ k ih =>
    intro acc
    exact ⟨(c5_step0 k acc).trans (ih _).2, (c5_step1 k acc).trans (ih _).1⟩

/-- C5: with the valid configuration `chunk_size = 10 > 0`,
`0 ≤ overlap = 9 < 10`, the chunking loop does not terminate on `c5text`:
`start` alternates between 0 and 1 forever (the source has no progress
guard), so the loop exhausts every fuel budget. -/
theorem c5_chunking_nontermination :
    (0 < 10 ∧ 9 < 10) ∧ ∀ fuel, simpleChunkText fuel c5text 10 9 = none := by
  refine ⟨⟨by norm_num, by norm_num⟩, fun fuel => ?_⟩
  unfold simpleChunkText
  rw [(c5_go_none fuel []).1]
  rfl

/-- C6 counterexample: `"abcdefghi"` has 9 characters, fewer than
`chunk_size = 10`, with `overlap = 5 < 10`, yet the loop runs a second
iteration from `start = 10 - 5 = 5` and emits two chunks, not one. -/
theorem c6_counterexample :
    "abcdefghi".data.length = 9 ∧ (9 : Nat) < 10 ∧ (5 : Nat) < 10 ∧
    simpleChunkText 3 "abcdefghi".data 10 5 =
      some ["abcdefghi".data, "fghi".data] ∧
    simpleChunkText 3 "abcdefghi".data 10 5 ≠ some [pyStrip "abcdefghi".data] := by
  refine ⟨rfl, by norm_num, by norm_num, rfl, by decide⟩

/-- C6 (amended): for every configuration with `chunk_size > 0` and
`overlap < chunk_size`, a non-whitespace input text of length at most
`chunk_size - overlap` yields exactly one chunk, equal to the trimmed
input. -/
theorem c6_single_chunk (text : List Char) (csize ov fuel : Nat)
    (hov : ov < csize) (hlen : 0 < text.length)
    (hle : text.length ≤ csize - ov) (hne : pyStrip text ≠ []) :
    simpleChunkText (fuel + 1) text csize ov = some [pyStrip text] := by
  have hcs_ge : text.length ≤ csize := le_trans hle (Nat.sub_le csize ov)
  have hstep : chunkStep text csize 0 = (text, csize) := by
    unfold chunkStep
    rw [if_neg (by omega : ¬ 0 + csize < text.length)]
    unfold pySlice
    rw [List.drop_zero, Nat.zero_add, Nat.sub_zero,
      List.take_of_length_le hcs_ge]
  unfold simpleChunkText
  simp only [chunkGo, hstep, if_pos hlen, if_pos hle, List.nil_append]
  have hkeep : (!(pyStrip (pyStrip text)).isEmpty) = true := by
    rw [pyStrip_idem]
    simpa [List.isEmpty_iff] using hne
  simp [List.filter, hkeep]

/-- C6 amended, witnessed on a concrete run: `"abcd"` with
`chunk_size = 10`, `overlap = 5` gives the single chunk `"abcd"`. -/
theorem c6_single_chunk_witness :
    simpleChunkText 1 "abcd".data 10 5 = some [pyStrip "abcd".data] :=
  c6_single_chunk "abcd".data 10 5 0 (by norm_num) (by norm_num)
    (by norm_num) (by decide)

/-- 16-character text with a sentence terminator at index 10. -/
def c7text : List Char := "aaaaaaaaaa.aaaaa".data

/-- C7: at the window `text[2:12]` (right edge strictly inside the text)
the last boundary sits at window-relative offset 8, greater than half the
window size, yet the emitted chunk is `text[2:9]` — not the window
shortened to end just after the boundary character (`text[2:11]`) — and
with `overlap = 8` the next start is `9 - 8 = 1`, not `11 - 8 = 3`:
`rfind`'s window-relative index is used as an absolute position. -/
theorem c7_relative_index_bug :
    2 + 10 < c7text.length ∧
    breakPoint c7text 10 2 = 8 ∧ ((8 : Int) > (10 / 2 : Nat)) ∧
    chunkStep c7text 10 2 = ("aaaaaaa".data, 9) ∧
    (chunkStep c7text 10 2).1 ≠ pySlice c7text 2 (2 + 8 + 1) ∧
    (chunkStep c7text 10 2).2 - 8 ≠ (2 + 8 + 1) - 8 := by
  refine ⟨by decide, by decide, by decide, by decide, by decide, by decide⟩

/-!
## `VectorService` (`vector_service.py`)

The ChromaDB collection is modelled as a list of records keyed by their
string id.  ChromaDB itself is an external library, not part of this
repository; its interface is modelled from the spec: `collection.add`
writes each record under its id with overwrite semantics (spec: "overwrite
semantics, not duplication"), `collection.query`/`get` with a `where`
clause return only records whose metadata matches, and `collection.delete`
removes the records with the given ids.  Embeddings and distances are an
oracle `dist` supplied by the caller of `searchSimilar`.
-/

/-- The metadata stored with each chunk (`vector_service.py` lines
100-105). -/
structure ChunkMeta where
  user_id : Nat
  document_id : Nat
  filename : String
  chunk_index : Nat
deriving DecidableEq

/-- One record of the ChromaDB collection: id, document text, metadata. -/
structure VectorRecord where
  id : String
  text : String
  meta : ChunkMeta
deriving DecidableEq

/-- `chunk_id = f"{user_id}_{document_id}_{i}"` (`vector_service.py` line
93). -/
def chunkId (u d i : Nat) : String :=
  toString u ++ "_" ++ toString d ++ "_" ++ toString i

/-- Modelled from the spec: `collection.add` on ids that already exist
overwrites, so the store keeps at most one record per id — records whose
id collides with a new one are replaced by the new ones. -/
def collectionAdd (store newRecs : List VectorRecord) : List VectorRecord :=
  store.filter (fun r => !((newRecs.map (fun s => s.id)).contains r.id)) ++ newRecs

/-- The records `VectorService.add_document` prepares for a chunk list
(`vector_service.py` lines 91-106): id `chunkId u d i`, the chunk text,
and metadata `(user_id, document_id, filename, chunk_index)`. -/
def newRecords (u d : Nat) (filename : String) (chunks : List String) :
    List VectorRecord :=
  chunks.enum.map (fun p => ⟨chunkId u d p.1, p.2, ⟨u, d, filename, p.1⟩⟩)

/-- Result of `add_document`: the returned count, the collection
afterwards, and the list of texts sent to the embedding model. -/
structure AddResult where
  count : Nat
  store : List VectorRecord
  embedded : List String
deriving DecidableEq

/-- `VectorService.add_document` (`vector_service.py` lines 66-129):
an empty chunk list returns 0 before any embedding or insert; otherwise
the chunk texts are embedded and added under deterministic ids. -/
def addDocument (u d : Nat) (filename : String) (chunks : List String)
    (store : List VectorRecord) : AddResult :=
  if chunks.isEmpty then ⟨0, store, []⟩
  else ⟨chunks.length, collectionAdd store (newRecords u d filename chunks), chunks⟩

/-- The number of records indexed for a `(user_id, document_id)` pair. -/
def countFor (u d : Nat) (store : List VectorRecord) : Nat :=
  (store.filter (fun r => r.meta.user_id == u && r.meta.document_id == d)).length

/-- Insertion into a list sorted by `leb` (used to model the ranked
retrieval of `collection.query`). -/
def insertLe {α : Type} (leb : α → α → Bool) (x : α) : List α → List α
  | [] => [x]
  | y :: ys => if leb x y then x :: y :: ys else y :: insertLe leb x ys

/-- Insertion sort by `leb`. -/
def sortLe {α : Type} (leb : α → α → Bool) : List α → List α
  | [] => []
  | x :: xs => insertLe leb x (sortLe leb xs)

/-- One formatted result of `search_similar` (`vector_service.py` lines
158-166). -/
structure SearchHit where
  text : String
  metadata : ChunkMeta
  distance : ℚ
  similarity_score : ℚ
deriving DecidableEq

/-- `VectorService.search_similar` (`vector_service.py` lines 131-173):
query the collection with the `where={"user_id": user_id}` filter, rank by
distance (`dist` is the embedding-distance oracle), keep `n` results, and
format each as text/metadata/distance/similarity. -/
def searchSimilar (dist : String → String → ℚ) (store : List VectorRecord)
    (query : String) (uid n : Nat) : List SearchHit :=
  ((sortLe (fun a b => decide (dist query a.text ≤ dist query b.text))
      (store.filter (fun r => r.meta.user_id == uid))).take n).map
    (fun r => ⟨r.text, r.meta, dist query r.text, 1 - dist query r.text⟩)

/-- Membership in an insertion: the element is the inserted one or was in
the list. -/
theorem mem_insertLe {α : Type} (leb : α → α → Bool) (x a : α) :
    ∀ l : List α, a ∈ insertLe leb x l → a = x ∨ a ∈ l := by
  intro l
  induction l with
  | nil => intro h; simpa [insertLe] using h
  | cons y ys ih =>
    intro h
    unfold insertLe at h
    by_cases hc : leb x y = true
    · rw [if_pos hc] at h
      rcases List.mem_cons.mp h with h | h
      · exact Or.inl h
      · exact Or.inr h
    · rw [if_neg hc] at h
      rcases List.mem_cons.mp h with h | h
      · exact Or.inr (by simp [h])
      · rcases ih h with h' | h'
        · exact Or.inl h'
        · exact Or.inr (List.mem_cons_of_mem _ h')

/-- Insertion sort does not invent elements. -/
theorem mem_sortLe {α : Type} (leb : α → α → Bool) (a : α) :
    ∀ l : List α, a ∈ sortLe leb l → a ∈ l := by
  intro l
  induction l with
  | nil => intro h; simpa [sortLe] using h
  | cons y ys ih =>
    intro h
    unfold sortLe at h
    rcases mem_insertLe leb y a _ h with h' | h'
    · simp [h']
    · exact List.mem_cons_of_mem _ (ih h')

/-- `VectorService.delete_document` filter (`vector_service.py` lines
190-196): the record matches the `where` clause on user and document. -/
def matchesDoc (u d : Nat) (r : VectorRecord) : Bool :=
  r.meta.user_id == u && r.meta.document_id == d

/-- The ids `collection.get` returns for a `(user_id, document_id)`
pair. -/
def docIds (u d : Nat) (store : List VectorRecord) : List String :=
  (store.filter (matchesDoc u d)).map (fun r => r.id)

/-- `VectorService.delete_document` (`vector_service.py` lines 175-210):
get the matching ids; if none, return 0 without deleting; otherwise delete
those ids and return their count. -/
def deleteDocument (u d : Nat) (store : List VectorRecord) :
    Nat × List VectorRecord :=
  if (store.filter (matchesDoc u d)).isEmpty then (0, store)
  else ((docIds u d store).length,
        store.filter (fun r => !((docIds u d store).contains r.id)))

/-- The `where` clause of `delete_document` as a proposition. -/
theorem matchesDoc_iff (u d : Nat) (r : VectorRecord) :
    matchesDoc u d r = true ↔ r.meta.user_id = u ∧ r.meta.document_id = d := by
  simp [matchesDoc]

/-- C1: every hit returned by `search_similar` scoped to tenant `A` carries
stored metadata with `user_id = A`; consequently, for any tenant `B`
distinct from `A`, no returned hit is owned by `B`. -/
theorem c1_search_tenant_isolation (dist : String → String → ℚ)
    (store : List VectorRecord) (query : String) (A n : Nat) (hit : SearchHit)
    (hmem : hit ∈ searchSimilar dist store query A n) :
    hit.metadata.user_id = A ∧ ∀ B, B ≠ A → hit.metadata.user_id ≠ B := by
  unfold searchSimilar at hmem
  rcases List.mem_map.mp hmem with ⟨r, hr, hfr⟩
  have hr1 : r ∈ sortLe (fun a b => decide (dist query a.text ≤ dist query b.text))
      (store.filter (fun s => s.meta.user_id == A)) := List.mem_of_mem_take hr
  have hr2 := mem_sortLe (fun a b => decide (dist query a.text ≤ dist query b.text))
    r (store.filter (fun s => s.meta.user_id == A)) hr1
  have huid : r.meta.user_id = A := by
    have := (List.mem_filter.mp hr2).2
    simpa using this
  have hmeta : hit.metadata = r.meta := by rw [← hfr]
  refine ⟨by rw [hmeta]; exact huid, fun B hB => ?_⟩
  rw [hmeta, huid]
  exact fun hc => hB hc.symm

/-- A two-tenant store for the C1 witness. -/
def wStore : List VectorRecord :=
  [⟨chunkId 1 1 0, "alpha", ⟨1, 1, "a.txt", 0⟩⟩,
   ⟨chunkId 2 1 0, "beta", ⟨2, 1, "b.txt", 0⟩⟩]

/-- C1 witnessed on a concrete two-tenant store: the hit returned for
tenant 1 has `user_id = 1` and belongs to no other tenant. -/
theorem c1_search_tenant_isolation_witness :
    (⟨"alpha", ⟨1, 1, "a.txt", 0⟩, 0, 1 - 0⟩ : SearchHit).metadata.user_id = 1 ∧
    ∀ B, B ≠ 1 →
      (⟨"alpha", ⟨1, 1, "a.txt", 0⟩, 0, 1 - 0⟩ : SearchHit).metadata.user_id ≠ B :=
  c1_search_tenant_isolation (fun _ _ => 0) wStore "q" 1 3 _ (by
    have h : searchSimilar (fun _ _ => 0) wStore "q" 1 3 =
        [⟨"alpha", ⟨1, 1, "a.txt", 0⟩, 0, 1 - 0⟩] := rfl
    rw [h]
    exact List.mem_singleton.mpr rfl)

/-- Filtering twice with the same predicate filters once. -/
theorem filter_self_idem {α : Type} (p : α → Bool) (l : List α) :
    (l.filter p).filter p = l.filter p := by
  induction l with
  | nil => rfl
  | cons x xs ih =>
    by_cases hx : p x = true
    · simp [List.filter_cons, hx, ih]
    · simp [List.filter_cons, hx, ih]

/-- Re-adding the same records removes exactly the previous copies: the
keyed overwrite is idempotent on the store. -/
theorem collectionAdd_idem (store N : List VectorRecord) :
    collectionAdd (collectionAdd store N) N = collectionAdd store N := by
  unfold collectionAdd
  rw [List.filter_append]
  have hN : N.filter (fun r => !((N.map (fun s => s.id)).contains r.id)) = [] := by
    rw [List.filter_eq_nil_iff]
    intro r hr
    simp only [Bool.not_eq_true', Bool.not_eq_false]
    exact List.elem_eq_true_of_mem (List.mem_map_of_mem _ hr)
  rw [hN, filter_self_idem, List.append_nil]

/-- No record of a store satisfying the freshness hypothesis is counted for
`(u, d)`. -/
theorem countFor_eq_zero (u d : Nat) (store : List VectorRecord)
    (h : ∀ r ∈ store, ¬(r.meta.user_id = u ∧ r.meta.document_id = d)) :
    countFor u d store = 0 := by
  unfold countFor
  rw [List.filter_eq_nil_iff.mpr]
  · rfl
  · intro r hr hq
    exact h r hr (by simpa using hq)

/-- Every record prepared by `add_document` is counted for `(u, d)`. -/
theorem filter_newRecords (u d : Nat) (f : String) (chunks : List String) :
    (newRecords u d f chunks).filter
      (fun r => r.meta.user_id == u && r.meta.document_id == d) =
      newRecords u d f chunks := by
  rw [List.filter_eq_self]
  intro r hr
  rcases List.mem_map.mp hr with ⟨p, _, rfl⟩
  simp

/-- `add_document` prepares one record per chunk. -/
theorem newRecords_length (u d : Nat) (f : String) (chunks : List String) :
    (newRecords u d f chunks).length = chunks.length := by
  unfold newRecords
  rw [List.length_map, List.enum_length]

/-- C3: the record id of the chunk at index `i` is the deterministic
function `chunkId u d i` of `(tenant, document, chunk_index)`; inserting
the same chunk list twice leaves the store exactly as after one insert,
and the number of records indexed for `(u, d)` is the chunk count, not
twice the chunk count. -/
theorem c3_idempotent_reingestion (u d : Nat) (f : String)
    (chunks : List String) (store : List VectorRecord)
    (h : ∀ r ∈ store, ¬(r.meta.user_id = u ∧ r.meta.document_id = d)) :
    (newRecords u d f chunks).map (fun r => r.id) =
      (List.range chunks.length).map (chunkId u d) ∧
    (addDocument u d f chunks (addDocument u d f chunks store).store).store =
      (addDocument u d f chunks store).store ∧
    countFor u d (addDocument u d f chunks
      (addDocument u d f chunks store).store).store = chunks.length := by
  refine ⟨?_, ?_, ?_⟩
  · unfold newRecords
    rw [List.map_map]
    rw [show ((fun r : VectorRecord => r.id) ∘ fun p : Nat × String =>
        (⟨chunkId u d p.1, p.2, ⟨u, d, f, p.1⟩⟩ : VectorRecord)) =
        (chunkId u d) ∘ Prod.fst from rfl]
    rw [← List.map_map, List.enum_map_fst]
  · by_cases hc : chunks.isEmpty = true
    · simp [addDocument, hc]
    · simp only [addDocument, hc, Bool.false_eq_true, if_false]
      exact collectionAdd_idem store (newRecords u d f chunks)
  · by_cases hc : chunks.isEmpty = true
    · have hnil : chunks = [] := by simpa [List.isEmpty_iff] using hc
      subst hnil
      simpa [addDocument] using countFor_eq_zero u d store h
    · simp only [addDocument, hc, Bool.false_eq_true, if_false]
      rw [collectionAdd_idem store (newRecords u d f chunks)]
      unfold collectionAdd countFor
      rw [List.filter_append, List.length_append]
      have h0 : ((store.filter (fun r =>
          !(((newRecords u d f chunks).map (fun s => s.id)).contains r.id))).filter
          (fun r => r.meta.user_id == u && r.meta.document_id == d)).length = 0 := by
        rw [List.filter_eq_nil_iff.mpr]
        · rfl
        · intro r hr hq
          exact h r (List.mem_of_mem_filter hr) (by simpa using hq)
      rw [h0, filter_newRecords, newRecords_length, Nat.zero_add]

/-- C3 witnessed concretely: two chunks for tenant 1, document 2, inserted
twice into an empty store. -/
theorem c3_idempotent_reingestion_witness :
    (newRecords 1 2 "f.txt" ["x", "y"]).map (fun r => r.id) =
      (List.range (["x", "y"] : List String).length).map (chunkId 1 2) ∧
    (addDocument 1 2 "f.txt" ["x", "y"]
        (addDocument 1 2 "f.txt" ["x", "y"] []).store).store =
      (addDocument 1 2 "f.txt" ["x", "y"] []).store ∧
    countFor 1 2 (addDocument 1 2 "f.txt" ["x", "y"]
      (addDocument 1 2 "f.txt" ["x", "y"] []).store).store =
      (["x", "y"] : List String).length :=
  c3_idempotent_reingestion 1 2 "f.txt" ["x", "y"] [] (by decide)

/-- A store with no record matching `(u, d)` is left unchanged by
`delete_document`, which returns 0. -/
theorem deleteDocument_no_match (u d : Nat) (t : List VectorRecord)
    (hnil : t.filter (matchesDoc u d) = []) :
    deleteDocument u d t = (0, t) := by
  unfold deleteDocument
  rw [if_pos (by rw [hnil]; rfl)]

/-- C9: deleting a `(tenant, document)` pair with no indexed chunks returns
`count_deleted = 0` and leaves the store untouched (no error path), and a
second delete of any pair right after a first one also returns 0 and
changes nothing. -/
theorem c9_delete_idempotent (u d : Nat) (store : List VectorRecord)
    (h : ∀ r ∈ store, ¬(r.meta.user_id = u ∧ r.meta.document_id = d)) :
    deleteDocument u d store = (0, store) ∧
    ∀ s : List VectorRecord,
      deleteDocument u d (deleteDocument u d s).2 =
        (0, (deleteDocument u d s).2) := by
  constructor
  · refine deleteDocument_no_match u d store (List.filter_eq_nil_iff.mpr ?_)
    intro r hr hq
    exact h r hr ((matchesDoc_iff u d r).mp hq)
  · intro s
    by_cases hs : (s.filter (matchesDoc u d)).isEmpty = true
    · have h2 : deleteDocument u d s = (0, s) := by
        unfold deleteDocument; rw [if_pos hs]
      rw [h2]
      exact h2
    · have h2 : (deleteDocument u d s).2 =
          s.filter (fun r => !((docIds u d s).contains r.id)) := by
        unfold deleteDocument; rw [if_neg hs]
      refine deleteDocument_no_match u d _ (List.filter_eq_nil_iff.mpr ?_)
      intro r hr hq
      rw [h2] at hr
      have hmem := List.mem_filter.mp hr
      have hnot : ((docIds u d s).contains r.id) = false := by
        have := hmem.2
        simpa using this
      have hin : r.id ∈ docIds u d s := by
        unfold docIds
        exact List.mem_map_of_mem _ (List.mem_filter.mpr ⟨hmem.1, hq⟩)
      have htrue : ((docIds u d s).contains r.id) = true :=
        List.elem_eq_true_of_mem hin
      rw [htrue] at hnot
      exact absurd hnot (by simp)

/-- C9 witnessed on the empty store: deleting a document that was never
indexed returns 0 with the store untouched, and any repeated delete
returns 0. -/
theorem c9_delete_idempotent_witness :
    deleteDocument 1 1 [] = (0, []) ∧
    ∀ s : List VectorRecord,
      deleteDocument 1 1 (deleteDocument 1 1 s).2 =
        (0, (deleteDocument 1 1 s).2) :=
  c9_delete_idempotent 1 1 [] (by decide)

/-- C10: `add_document` on an empty chunk list returns 0 immediately: the
store is unchanged and no text is sent to the embedding model. -/
theorem c10_empty_chunks_noop (u d : Nat) (f : String)
    (store : List VectorRecord) :
    addDocument u d f [] store = ⟨0, store, []⟩ := rfl

/-!
## `QAService` and the upload endpoint (`qa_service.py`, `apis/main.py`)

`process_file` extraction and the vector insert are oracle parameters of
type `Except`; `QAService.process_document` catches every exception and
reports it in the `success`/`message` dictionary.  The SQL `documents`
table is a list of rows; timing fields are omitted.
-/

/-- The result dictionary of `QAService.process_document`
(`qa_service.py` lines 28-83): `success`, `message`, `chunks_created`. -/
structure ProcessResult where
  success : Bool
  message : String
  chunks_created : Nat
deriving DecidableEq

/-- `QAService.process_document`: extraction failure and insert failure
are caught (`except` branch, message `"Error processing document: ..."`);
zero extracted chunks short-circuits with
`"No content could be extracted from the document"`. -/
def processDocument (chunksOutcome : Except String (List String))
    (addOutcome : Except String Nat) : ProcessResult :=
  match chunksOutcome with
  | .error e => ⟨false, "Error processing document: " ++ e, 0⟩
  | .ok [] => ⟨false, "No content could be extracted from the document", 0⟩
  | .ok (_ :: _) =>
    match addOutcome with
    | .error e => ⟨false, "Error processing document: " ++ e, 0⟩
    | .ok n => ⟨true, "Document processed successfully", n⟩

/-- One row of the SQL `documents` table (id and chunk count; the other
columns play no role in the claims). -/
structure DocRow where
  id : Nat
  chunks_count : Nat
deriving DecidableEq

/-- The success payload of the upload endpoint. -/
structure UploadResponse where
  message : String
  document_id : Nat
  chunks_created : Nat
deriving DecidableEq

/-- `upload_document` (`apis/main.py` lines 361-430) after the metadata row
`⟨docId, 0⟩` is inserted: on success the row's `chunks_count` is updated;
on failure the row is deleted (line 396), the `HTTPException(400)` raised
at line 399 is caught by the catch-all at line 416, which deletes the row
again and re-raises a 500 whose detail wraps the 400's text. -/
def uploadDocument (docId : Nat) (rows : List DocRow)
    (result : ProcessResult) : List DocRow × Except String UploadResponse :=
  if result.success then
    ((rows ++ [(⟨docId, 0⟩ : DocRow)]).map
       (fun r : DocRow =>
         if r.id == docId then (⟨r.id, result.chunks_created⟩ : DocRow) else r),
     Except.ok ⟨result.message, docId, result.chunks_created⟩)
  else
    (((rows ++ [(⟨docId, 0⟩ : DocRow)]).filter
        (fun r : DocRow => !(r.id == docId))).filter
       (fun r : DocRow => !(r.id == docId)),
     Except.error ("Document processing failed: 400: " ++ result.message))

/-- C4: when extraction fails, yields zero chunks, or the vector insert
fails, `process_document` reports failure and the upload endpoint deletes
the metadata row it created before returning the error: the surviving rows
are exactly the rows that existed before the call. -/
theorem c4_compensating_delete (docId : Nat) (rows : List DocRow)
    (co : Except String (List String)) (ao : Except String Nat)
    (hfresh : ∀ r ∈ rows, r.id ≠ docId)
    (hfail : (∃ e, co = Except.error e) ∨ co = Except.ok ([] : List String) ∨
      ∃ e, ao = Except.error e) :
    (processDocument co ao).success = false ∧
    uploadDocument docId rows (processDocument co ao) =
      (rows, Except.error ("Document processing failed: 400: " ++
        (processDocument co ao).message)) := by
  have hsucc : (processDocument co ao).success = false := by
    rcases hfail with ⟨e, rfl⟩ | rfl | ⟨e, he⟩
    · rfl
    · rfl
    · cases co with
      | error e' => rfl
      | ok cs =>
        cases cs with
        | nil => rfl
        | cons c cs' => rw [he]; rfl
  refine ⟨hsucc, ?_⟩
  unfold uploadDocument
  rw [hsucc]
  have h1 : rows.filter (fun r => !(r.id == docId)) = rows :=
    List.filter_eq_self.mpr (fun r hr => by simp [hfresh r hr])
  have hclean : (rows ++ [(⟨docId, 0⟩ : DocRow)]).filter
      (fun r : DocRow => !(r.id == docId)) = rows := by
    rw [List.filter_append, h1]
    simp
  rw [if_neg (by simp), hclean, h1]

/-- C4 witnessed concretely: a failing extraction on a fresh row id 7 with
an empty prior table. -/
theorem c4_compensating_delete_witness :
    (processDocument (Except.error "boom") (Except.ok 3)).success = false ∧
    uploadDocument 7 [] (processDocument (Except.error "boom") (Except.ok 3)) =
      ([], Except.error ("Document processing failed: 400: " ++
        (processDocument (Except.error "boom") (Except.ok 3)).message)) :=
  c4_compensating_delete 7 [] (Except.error "boom") (Except.ok 3)
    (by decide) (Or.inl ⟨"boom", rfl⟩)

/-!
## `LLMService.generate_answer` and `QAService.ask_question`
-/

/-- The answer prefix of `generate_answer`'s `except` branch
(`llm_provider.py` line 84). -/
def errAnswerPrefix : String :=
  "I apologize, but I encountered an error while generating the answer: "

/-- The dictionary returned by `LLMService.generate_answer`. -/
structure LLMResult where
  answer : String
  confidence_score : ℚ
deriving DecidableEq

/-- `LLMService.generate_answer` (`llm_provider.py` lines 27-86): on a
successful completion, strip the content and grade it; on any failure,
return the apology text carrying the failure reason with confidence 0.0 —
never raise. -/
def generateAnswer (completion : Except String String) (context : String) :
    LLMResult :=
  match completion with
  | .ok content =>
    ⟨String.mk (pyStrip content.data),
     calculateConfidence (String.mk (pyStrip content.data)) context⟩
  | .error e => ⟨errAnswerPrefix ++ e, 0⟩

/-- The response dictionary of `QAService.ask_question` (timing omitted). -/
structure AskResponse where
  answer : String
  confidence_score : ℚ
  sources : List String
  retrieved_chunks : Nat
deriving DecidableEq

/-- The source-collection loop of `ask_question` (`qa_service.py` lines
135-141): append each chunk's filename unless already present. -/
def collectSources : List SearchHit → List String → List String
  | [], acc => acc
  | h :: t, acc =>
    collectSources t
      (if acc.contains h.metadata.filename then acc else acc ++ [h.metadata.filename])

/-- The canned answer when the tenant has no retrievable chunks. -/
def noDocsAnswer : String :=
  "I don" ++ apoS ++
    "t have any documents to search through. Please upload some documents first."

/-- `QAService.ask_question` (`qa_service.py` lines 85-199): with no
retrieved chunks, answer the canned text with confidence 0; otherwise join
the chunk texts into the context, call `generate_answer` (which never
raises), and return its answer and confidence with the collected sources.
The function is total: no outcome raises to the caller. -/
def askQuestion (question : String) (similarChunks : List SearchHit)
    (completion : Except String String) : AskResponse :=
  if similarChunks.isEmpty then ⟨noDocsAnswer, 0, [], 0⟩
  else
    ⟨(generateAnswer completion
        (String.intercalate "\n\n" (similarChunks.map (fun c => c.text)))).answer,
     (generateAnswer completion
        (String.intercalate "\n\n" (similarChunks.map (fun c => c.text)))).confidence_score,
     collectSources similarChunks [],
     similarChunks.length⟩

/-- C8: for every question and retrieved context, a failing completion
degrades to a well-formed response: the answer text contains the failure
reason, the confidence score is 0, and `ask_question` returns the plain
response value (no error is propagated). -/
theorem c8_degraded_answer (question : String) (chunks : List SearchHit)
    (e : String) (hne : chunks ≠ []) :
    (∀ context, generateAnswer (Except.error e) context =
      ⟨errAnswerPrefix ++ e, 0⟩) ∧
    askQuestion question chunks (Except.error e) =
      ⟨errAnswerPrefix ++ e, 0, collectSources chunks [], chunks.length⟩ ∧
    e.data <:+: (askQuestion question chunks (Except.error e)).answer.data := by
  have hemp : chunks.isEmpty = false := by
    cases chunks with
    | nil => exact absurd rfl hne
    | cons a t => rfl
  have hask : askQuestion question chunks (Except.error e) =
      ⟨errAnswerPrefix ++ e, 0, collectSources chunks [], chunks.length⟩ := by
    unfold askQuestion
    rw [hemp]
    simp [generateAnswer]
  refine ⟨fun _ => rfl, hask, ?_⟩
  rw [hask]
  show e.data <:+: (errAnswerPrefix ++ e).data
  rw [String.data_append]
  exact List.IsSuffix.isInfix ⟨errAnswerPrefix.data, rfl⟩

/-- C8 witnessed concretely: one retrieved chunk and a completion failing
with reason `"boom"`. -/
theorem c8_degraded_answer_witness :
    (∀ context, generateAnswer (Except.error "boom") context =
      ⟨errAnswerPrefix ++ "boom", 0⟩) ∧
    askQuestion "q" [⟨"t", ⟨1, 1, "f.txt", 0⟩, 0, 1⟩] (Except.error "boom") =
      ⟨errAnswerPrefix ++ "boom", 0,
        collectSources [⟨"t", ⟨1, 1, "f.txt", 0⟩, 0, 1⟩] [], 1⟩ ∧
    "boom".data <:+:
      (askQuestion "q" [⟨"t", ⟨1, 1, "f.txt", 0⟩, 0, 1⟩]
        (Except.error "boom")).answer.data := by
  have h := c8_degraded_answer "q" [⟨"t", ⟨1, 1, "f.txt", 0⟩, 0, 1⟩] "boom"
    (List.cons_ne_nil _ _)
  exact ⟨h.1, h.2.1, h.2.2⟩

end QAChatbot
